import Mathlib

/-!
Shallow embedding of `src/data/tosdr/client.py` (ToS;DR API client), the
paginated concurrent-fetch orchestrator `Client.get_all_services_metadata`
together with its helpers `get_service_metadata_page`,
`_async_get_services_metadata_in_page` (a `backoff.on_exception`-decorated
fetch of one page) and `_async_get_remaining_services_metadata`
(an `asyncio.gather` fan-out over pages `2..totalPages` followed by a merge
loop).

The network/parse boundary is modelled by an environment
`Env : Nat → Nat → Except HttpError GetServiceMetadataPageResponse` giving,
for each page index and each (0-based) attempt number, either the parsed
response or the exception that attempt raises.  `ServiceMetadata` payloads
are opaque to the client, so they are modelled by an abstract token type.
Logging (`logger.error` for failed pages) is modelled by explicitly
returning the list of error-log entries next to the returned record list.
-/

namespace ToSDR

/-- Modelled from the spec: `ServiceMetadata` lives in `src/data/tosdr/models.py`,
which is not part of the client module under study; the spec declares records
to be opaque payloads the core never interprets, so they are modelled by an
abstract token (a natural number tag). -/
abbrev ServiceMetadata := Nat

/-- Exceptions a single fetch attempt can raise, as the client distinguishes
them: `tooManyRequests` is `aiohttp.ClientResponseError` with status
`codes [ "too_many" ]` (HTTP 429, raised via `raise_for_status=True`);
`otherStatus c` is a `ClientResponseError` with any other status `c`;
`networkFailure` is a connection-level error that is not a
`ClientResponseError`; `malformedBody` is a body-parse/validation error
(`resp.json()` or `model_validate` failing). -/
inductive HttpError where
  | tooManyRequests : HttpError
  | otherStatus (code : Nat) : HttpError
  | networkFailure : HttpError
  | malformedBody : HttpError
deriving Repr, DecidableEq

/-- Decidable equality of fetch outcomes, so concrete runs can be settled by
evaluation. -/
instance {ε α : Type} [DecidableEq ε] [DecidableEq α] : DecidableEq (Except ε α)
  | Except.ok a, Except.ok b =>
    if h : a = b then Decidable.isTrue (congrArg Except.ok h)
    else Decidable.isFalse fun hc => h (Except.ok.inj hc)
  | Except.error e, Except.error f =>
    if h : e = f then Decidable.isTrue (congrArg Except.error h)
    else Decidable.isFalse fun hc => h (Except.error.inj hc)
  | Except.ok _, Except.error _ => Decidable.isFalse fun hc => Except.noConfusion hc
  | Except.error _, Except.ok _ => Decidable.isFalse fun hc => Except.noConfusion hc

/-- The `_page` block of a page response (`GetServiceMetadataPageResponse._Parameter.PageInfo`):
fields `total`, `current`, `start`, `end`.  Python integers are unbounded, so
they are modelled by `Int`. -/
structure PageInfo where
  total : Int
  current : Int
  start : Int
  pageEnd : Int
deriving Repr, DecidableEq

/-- Parsed page response (`GetServiceMetadataPageResponse`): the `_page` info
block and the list of `ServiceMetadata` items of this page. -/
structure GetServiceMetadataPageResponse where
  pageInfo : PageInfo
  services : List ServiceMetadata
deriving Repr, DecidableEq

/-- Property `GetServiceMetadataPageResponse.total_page_count`: returns
`self.parameters.page_info.end`. -/
def GetServiceMetadataPageResponse.total_page_count
    (r : GetServiceMetadataPageResponse) : Int :=
  r.pageInfo.pageEnd

/-- Property `GetServiceMetadataPageResponse.services_metadata`: returns
`self.parameters.services`. -/
def GetServiceMetadataPageResponse.services_metadata
    (r : GetServiceMetadataPageResponse) : List ServiceMetadata :=
  r.services

/-- Network/parse environment of one run: for page index `page` and 0-based
attempt number `attempt`, the outcome of issuing that request and parsing its
body.  The environment is a function, so a given (page, attempt) pair has one
deterministic outcome, matching a fixed record of what the remote service did
during the run. -/
def Env : Type := Nat → Nat → Except HttpError GetServiceMetadataPageResponse

/-- Embedding of `Client.get_service_metadata_page`: a single synchronous
`self.request` plus `model_validate`, with no retry decorator and no rate
limiter around it; its outcome is the outcome of attempt 0 for that page. -/
def get_service_metadata_page (env : Env) (page : Nat) :
    Except HttpError GetServiceMetadataPageResponse :=
  env page 0

/-- The `max_tries=10` argument of the `backoff.on_exception` decorator. -/
def maxTries : Nat := 10

/-- The retry predicate induced by the decorator arguments
`exception=aiohttp.ClientResponseError` and
`giveup=lambda e: e.status != codes [ "too_many" ]`: an exception is retried
exactly when it is a `ClientResponseError` whose status is 429.  Network
failures and body-parse errors are not of the handled exception class and
other statuses hit the giveup predicate, so none of those are retried. -/
def retryableError : HttpError → Bool
  | HttpError.tooManyRequests => true
  | _ => false

/-- Embedding of the `backoff.on_exception(wait_gen=backoff.expo, ...)`
retry loop around one page fetch: `attempt` is the 0-based number of the
attempt about to run and `triesLeft` the number of attempts still allowed
(initially `maxTries`).  A successful attempt returns its response; a failed
attempt is retried when its exception is retryable and tries remain,
otherwise the exception is surfaced.  The exponential waiting times of
`backoff.expo` do not affect which outcome is returned, so they are not
modelled. -/
def backoffFetch (env : Env) (page : Nat) :
    Nat → Nat → Except HttpError GetServiceMetadataPageResponse
  | _, 0 => Except.error HttpError.tooManyRequests
  | attempt, 1 => env page attempt
  | attempt, Nat.succ (Nat.succ k) =>
    match env page attempt with
    | Except.ok r => Except.ok r
    | Except.error e =>
      if retryableError e then backoffFetch env page (attempt + 1) (Nat.succ k)
      else Except.error e

/-- Embedding of `_async_get_services_metadata_in_page`: the decorated fetch
of one page, returning that page's `services_metadata` on success. -/
def asyncGetServicesMetadataInPage (env : Env) (page : Nat) :
    Except HttpError (List ServiceMetadata) :=
  (backoffFetch env page 0 maxTries).map GetServiceMetadataPageResponse.services_metadata

/-- Events one page-fetch path performs on shared resources, used to compare
the synchronous bootstrap path with the decorated async path: acquiring the
shared `AsyncLimiter` (`async with self.rate_limieter`) and issuing the
request of a given attempt. -/
inductive FetchEvent where
  | acquireLimiter (page : Nat) : FetchEvent
  | request (page : Nat) (attempt : Nat) : FetchEvent
deriving Repr, DecidableEq

/-- Resource trace of `Client.get_service_metadata_page`: the synchronous
bootstrap fetch issues exactly one request and touches no limiter (the body
is `self.request(...)` directly, outside any `async with self.rate_limieter`
block and outside the backoff decorator). -/
def syncFetchTrace (page : Nat) : List FetchEvent :=
  [FetchEvent.request page 0]

/-- Resource trace of the decorated async fetch: each attempt first acquires
the shared rate limiter (`async with self.rate_limieter, self.async_request(...)`)
and then issues its request; retries repeat both. -/
def backoffFetchTrace (env : Env) (page : Nat) : Nat → Nat → List FetchEvent
  | _, 0 => []
  | attempt, 1 => [FetchEvent.acquireLimiter page, FetchEvent.request page attempt]
  | attempt, Nat.succ (Nat.succ k) =>
    FetchEvent.acquireLimiter page :: FetchEvent.request page attempt ::
      (match env page attempt with
       | Except.ok _ => []
       | Except.error e =>
         if retryableError e then backoffFetchTrace env page (attempt + 1) (Nat.succ k)
         else [])

/-- Embedding of `remaining_pages_indices = range(2, first_page.total_page_count + 1)`:
the page indices `2, 3, ..., total_page_count` in ascending order, empty
whenever `total_page_count + 1 <= 2` (including zero and negative values,
since `Int.toNat` sends non-positive integers to 0 just as Python's `range`
is empty there). -/
def remainingPagesIndices (pageEnd : Int) : List Nat :=
  List.range' 2 (pageEnd - 1).toNat

/-- Embedding of the merge loop of `_async_get_remaining_services_metadata`:
iterate over the (page index, gathered outcome) pairs in submission order;
an `Exception` outcome appends an error-log entry
(`logger.error(f"Failed to query service page ...")`), a success outcome
appends its items to the accumulated record list (`services += coro_ret`). -/
def aggregateOutcomes :
    List (Nat × Except HttpError (List ServiceMetadata)) →
      List ServiceMetadata × List (Nat × HttpError)
  | [] => ([], [])
  | (page, out) :: rest =>
    let acc := aggregateOutcomes rest
    match out with
    | Except.ok items => (items ++ acc.1, acc.2)
    | Except.error e => (acc.1, (page, e) :: acc.2)

/-- Embedding of `_async_get_remaining_services_metadata` as `asyncio.gather`
exposes it: `gather(*tasks, return_exceptions=True)` returns the per-task
outcomes in submission order, so the merge loop consumes the pages'
outcomes zipped with their indices.  The first component is the merged
record list the coroutine returns, the second the error-log entries it
emits. -/
def asyncGetRemainingServicesMetadata (env : Env) (pages : List Nat) :
    List ServiceMetadata × List (Nat × HttpError) :=
  aggregateOutcomes (pages.zip (pages.map (asyncGetServicesMetadataInPage env)))

/-- Result of one run of `get_all_services_metadata`: the record list the
Python function returns, and the error-log entries (failed page index and
exception) emitted on the way.  The Python return value is only `records`;
`failedPageLog` models the `logger.error` side channel. -/
structure RunResult where
  records : List ServiceMetadata
  failedPageLog : List (Nat × HttpError)
deriving Repr, DecidableEq

/-- Embedding of `Client.get_all_services_metadata`: fetch page 1
synchronously; on failure the exception propagates to the caller (no partial
result).  On success, fan out over `remaining_pages_indices`, gather, merge,
and return page 1's items followed by the merged remaining items. -/
def get_all_services_metadata (env : Env) : Except HttpError RunResult :=
  match get_service_metadata_page env 1 with
  | Except.error e => Except.error e
  | Except.ok first_page =>
    let pages := remainingPagesIndices first_page.total_page_count
    let rest := asyncGetRemainingServicesMetadata env pages
    Except.ok ⟨first_page.services_metadata ++ rest.1, rest.2⟩

/-- Value actually returned to the caller of `get_all_services_metadata`
(a bare `list[ServiceMetadata]`): the record list only, with the error log
projected away. -/
def returnedValue (env : Env) : Except HttpError (List ServiceMetadata) :=
  (get_all_services_metadata env).map RunResult.records

/-- Pages for which the orchestrator submits a concurrent fetch task, in
submission order: none when the bootstrap fetch fails (the generator
`(... for page in remaining_pages_indices)` is never built), otherwise
exactly `remaining_pages_indices`. -/
def scheduledPages (env : Env) : List Nat :=
  match get_service_metadata_page env 1 with
  | Except.error _ => []
  | Except.ok first_page => remainingPagesIndices first_page.total_page_count

/-- Completion-order model of the event loop: `perm` lists task indices in
the order their coroutines complete; each completion pairs the task's index
with that task's (deterministic) result.  Indices outside the task list are
skipped. -/
def completeInOrder {α : Type} (tasks : List α) (perm : List Nat) : List (Nat × α) :=
  perm.filterMap fun i => (tasks[i]?).map fun r => (i, r)

/-- Model of `asyncio.gather`: each task's result is stored in the slot of
the task's submission index, regardless of when it completed; the gathered
list reads the slots in submission order.  A slot no completion filled reads
`none`. -/
def gatherResults {α : Type} (tasks : List α) (perm : List Nat) : List (Option α) :=
  (List.range tasks.length).map fun i =>
    ((completeInOrder tasks perm).find? fun p => p.1 == i).map Prod.snd

/-- Turns a list of filled slots into a list of results, failing if any slot
was never filled. -/
def seqOptions {α : Type} : List (Option α) → Option (List α)
  | [] => some []
  | none :: _ => none
  | some a :: rest => (seqOptions rest).map fun l => a :: l

/-- Scheduled variant of `get_all_services_metadata`, threading an explicit
completion order `perm` of the event loop through the gather step; `none`
marks an incoherent schedule in which some submitted task never completes.
When `perm` is a permutation of the task indices this coincides with
`get_all_services_metadata`. -/
def get_all_services_metadata_sched (env : Env) (perm : List Nat) :
    Option (Except HttpError RunResult) :=
  match get_service_metadata_page env 1 with
  | Except.error e => some (Except.error e)
  | Except.ok first_page =>
    let pages := remainingPagesIndices first_page.total_page_count
    match seqOptions (gatherResults (pages.map (asyncGetServicesMetadataInPage env)) perm) with
    | none => none
    | some outs =>
      let rest := aggregateOutcomes (pages.zip outs)
      some (Except.ok ⟨first_page.services_metadata ++ rest.1, rest.2⟩)

/-- Concrete page-1 response used by test runs: 3 total pages, items 1 and 2. -/
def firstPageW : GetServiceMetadataPageResponse := ⟨⟨5, 1, 1, 3⟩, [1, 2]⟩

/-- Concrete run in which pages 1..3 all succeed: page 2 holds item 3 and
page 3 holds items 4 and 5, on every attempt. -/
def envOrder : Env := fun page _ =>
  if page = 1 then Except.ok firstPageW
  else if page = 2 then Except.ok ⟨⟨5, 2, 3, 3⟩, [3]⟩
  else Except.ok ⟨⟨5, 3, 4, 3⟩, [4, 5]⟩

/-- Concrete run in which every request fails at the network level,
including the bootstrap fetch of page 1. -/
def envBoot : Env := fun _ _ => Except.error HttpError.networkFailure

/-- Concrete run in which every page throttles on attempts 0..8 and
succeeds on attempt 9 (the 10th attempt) with the single item 42. -/
def envThrottle : Env := fun _ attempt =>
  if attempt < 9 then Except.error HttpError.tooManyRequests
  else Except.ok ⟨⟨1, 2, 1, 2⟩, [42]⟩

/-- Concrete run in which every page fails attempt 0 with a 500 status and
would succeed from attempt 1 on, exposing whether any retry happens. -/
def envOther : Env := fun _ attempt =>
  if attempt = 0 then Except.error (HttpError.otherStatus 500)
  else Except.ok ⟨⟨1, 1, 1, 1⟩, [9]⟩

/-- Concrete 3-page run realizing the spec scenario: page 1 succeeds, page 2
terminally fails with status 503 on every attempt, page 3 succeeds with five
items. -/
def envThreeMixed : Env := fun page _ =>
  if page = 1 then Except.ok firstPageW
  else if page = 2 then Except.error (HttpError.otherStatus 503)
  else Except.ok ⟨⟨5, 3, 4, 3⟩, [21, 22, 23, 24, 25]⟩

/-- Concrete page-1 response declaring 2 total pages, with items 10 and 11. -/
def firstPageTwo : GetServiceMetadataPageResponse := ⟨⟨4, 1, 1, 2⟩, [10, 11]⟩

/-- Concrete run in which page 1 succeeds (2 total pages) and page 2
terminally fails with a network error on every attempt. -/
def envPageTwoFails : Env := fun page _ =>
  if page = 1 then Except.ok firstPageTwo else Except.error HttpError.networkFailure

/-- Concrete run identical to `envPageTwoFails` except that page 2 succeeds
with an empty item list. -/
def envPageTwoEmpty : Env := fun page _ =>
  if page = 1 then Except.ok firstPageTwo else Except.ok ⟨⟨4, 2, 3, 2⟩, []⟩

/-- Concrete single-page response reporting 1 total page, with item 5. -/
def pageOneRetryOk : GetServiceMetadataPageResponse := ⟨⟨2, 1, 1, 1⟩, [5]⟩

/-- Concrete run in which every page throttles on attempt 0 and succeeds on
every later attempt, exposing whether the bootstrap fetch retries. -/
def envBootThrottle : Env := fun _ attempt =>
  if attempt = 0 then Except.error HttpError.tooManyRequests
  else Except.ok pageOneRetryOk

/-- Concrete run whose page-1 response reports a negative total page count
and carries items 7 and 8. -/
def envNeg : Env := fun _ _ => Except.ok ⟨⟨0, 1, 0, -1⟩, [7, 8]⟩

/-- Membership in the completion list: a pair occurs exactly when its index
was scheduled to complete and its payload is that task's result. -/
lemma mem_completeInOrder {α : Type} {tasks : List α} {perm : List Nat}
    {p : Nat × α} :
    p ∈ completeInOrder tasks perm ↔ p.1 ∈ perm ∧ tasks[p.1]? = some p.2 := by
  unfold completeInOrder
  rw [List.mem_filterMap]
  constructor
  · rintro ⟨j, hj, hf⟩
    rcases ho : tasks[j]? with _ | r
    · rw [ho] at hf; simp at hf
    · rw [ho] at hf
      simp only [Option.map_some', Option.some.injEq] at hf
      subst hf
      exact ⟨hj, ho⟩
  · rintro ⟨hmem, ho⟩
    exact ⟨p.1, hmem, by rw [ho]; rfl⟩

/-- A `find?` on a key returns that key with the common value, provided every
pair carrying the key has that value and at least one does. -/
lemma find?_key_eq {α : Type} (i : Nat) (v : α) :
    ∀ (l : List (Nat × α)), (∀ p ∈ l, p.1 = i → p.2 = v) → (∃ p ∈ l, p.1 = i) →
      l.find? (fun p => p.1 == i) = some (i, v)
  | [], _, hex => by simp at hex
  | q :: l, hall, hex => by
    by_cases hq : q.1 = i
    · have hv : q.2 = v := hall q (List.mem_cons_self q l) hq
      rw [List.find?_cons_of_pos _ (by simp [hq])]
      cases q
      simp_all
    · rw [List.find?_cons_of_neg _ (by simp [hq])]
      refine find?_key_eq i v l (fun p hp => hall p (List.mem_cons_of_mem q hp)) ?_
      rcases hex with ⟨p, hp, hpi⟩
      rcases List.mem_cons.mp hp with h | h
      · exact absurd (h ▸ hpi) hq
      · exact ⟨p, h, hpi⟩

/-- Gather determinism: when the completion order is any permutation of the
submitted task indices, the gathered list is the task results in submission
order, independently of the permutation. -/
lemma gatherResults_perm {α : Type} (tasks : List α) (perm : List Nat)
    (h : perm.Perm (List.range tasks.length)) :
    gatherResults tasks perm = tasks.map some := by
  apply List.ext_getElem?
  intro n
  unfold gatherResults
  rw [List.getElem?_map, List.getElem?_map]
  by_cases hn : n < tasks.length
  · rw [List.getElem?_range hn]
    have hget : tasks[n]? = some (tasks.get ⟨n, hn⟩) := List.getElem?_eq_getElem hn
    have hfind : (completeInOrder tasks perm).find? (fun p => p.1 == n) =
        some (n, tasks.get ⟨n, hn⟩) := by
      apply find?_key_eq
      · intro p hp hpn
        have h2 := (mem_completeInOrder.mp hp).2
        rw [hpn, hget] at h2
        exact (Option.some.injEq _ _ ▸ h2.symm)
      · refine ⟨(n, tasks.get ⟨n, hn⟩), mem_completeInOrder.mpr ⟨?_, hget⟩, rfl⟩
        exact h.mem_iff.mpr (List.mem_range.mpr hn)
    rw [List.getElem?_eq_getElem hn]
    simp [hfind]
  · rw [List.getElem?_eq_none (by simpa using hn),
      List.getElem?_eq_none (by simpa using hn)]
    rfl

/-- Sequencing a fully filled slot list recovers the results. -/
lemma seqOptions_map_some {α : Type} (l : List α) :
    seqOptions (l.map some) = some l := by
  induction l with
  | nil => rfl
  | cons a l ih => simp [seqOptions, ih]

/-- Closed form of the merge loop on the pages zipped with their own
outcomes: the record component is the concatenation, in list order, of the
successful pages' item lists; the log component lists each failed page with
its error, in list order. -/
lemma aggregateOutcomes_zip_map
    (f : Nat → Except HttpError (List ServiceMetadata)) :
    ∀ pages : List Nat,
      aggregateOutcomes (pages.zip (pages.map f)) =
        (((pages.filterMap fun p => (f p).toOption).flatten),
          pages.filterMap fun p =>
            match f p with
            | Except.error e => some (p, e)
            | Except.ok _ => none)
  | [] => rfl
  | p :: pages => by
    rw [List.map_cons, List.zip_cons_cons]
    show aggregateOutcomes ((p, f p) :: pages.zip (pages.map f)) = _
    unfold aggregateOutcomes
    rw [aggregateOutcomes_zip_map f pages]
    cases hf : f p with
    | ok items => simp [hf, Except.toOption, List.filterMap_cons]
    | error e => simp [hf, Except.toOption, List.filterMap_cons]

/-- Retry-loop invariant while the environment keeps throttling: if the `k`
attempts starting at `attempt` all raise the throttling error, the loop with
`k + 1` tries left ends up returning the outcome of attempt `attempt + k`. -/
lemma backoffFetch_all_throttle (env : Env) (page : Nat) :
    ∀ (k attempt : Nat),
      (∀ i, i < k → env page (attempt + i) = Except.error HttpError.tooManyRequests) →
      backoffFetch env page attempt (k + 1) = env page (attempt + k)
  | 0, attempt, _ => by simp [backoffFetch]
  | k + 1, attempt, h => by
    have h0 : env page attempt = Except.error HttpError.tooManyRequests := by
      simpa using h 0 (Nat.succ_pos k)
    show backoffFetch env page attempt (Nat.succ (Nat.succ k)) = _
    rw [backoffFetch, h0]
    simp only [retryableError, if_true]
    have hrec := backoffFetch_all_throttle env page k (attempt + 1) fun i hi => by
      have := h (i + 1) (by omega)
      simpa [Nat.add_assoc, Nat.add_comm 1 i] using this
    rw [hrec]
    congr 1
    omega

/-- Give-up behaviour of the retry loop: a non-retryable exception on the
current attempt is surfaced at once, however many tries remain. -/
lemma backoffFetch_giveup (env : Env) (page attempt : Nat) (e : HttpError)
    (h0 : env page attempt = Except.error e) (hne : retryableError e = false) :
    ∀ k, backoffFetch env page attempt (k + 1) = Except.error e := by
  intro k
  cases k with
  | zero => simpa [backoffFetch] using h0
  | succ k =>
    show backoffFetch env page attempt (Nat.succ (Nat.succ k)) = _
    rw [backoffFetch, h0]
    simp [hne]

/-- C1 (confirmed): in every run whose bootstrap fetch of page 1 succeeds,
and for every completion order of the fan-out tasks (any permutation of the
task indices), the scheduled run returns the record list consisting of page
1's items followed by the successful remaining pages' item lists
concatenated in ascending page-index order (`remainingPagesIndices` is
`range' 2 _`, the ascending list `2, 3, ...`); in particular, for successful
pages `i < j`, all of page `i`'s items precede all of page `j`'s items,
regardless of which task completed first.  The error log likewise lists
failed pages in ascending page order. -/
theorem C1_records_preserve_page_order (env : Env) (perm : List Nat)
    (first_page : GetServiceMetadataPageResponse)
    (h1 : get_service_metadata_page env 1 = Except.ok first_page)
    (hperm : perm.Perm
      (List.range (remainingPagesIndices first_page.total_page_count).length)) :
    get_all_services_metadata_sched env perm =
      some (Except.ok
        ⟨first_page.services_metadata ++
          ((remainingPagesIndices first_page.total_page_count).filterMap
            fun p => (asyncGetServicesMetadataInPage env p).toOption).flatten,
          (remainingPagesIndices first_page.total_page_count).filterMap
            fun p =>
              match asyncGetServicesMetadataInPage env p with
              | Except.error e => some (p, e)
              | Except.ok _ => none⟩) := by
  unfold get_all_services_metadata_sched
  simp only [h1]
  have hlen : perm.Perm (List.range
      ((remainingPagesIndices first_page.total_page_count).map
        (asyncGetServicesMetadataInPage env)).length) := by
    simpa using hperm
  simp only [gatherResults_perm _ _ hlen, seqOptions_map_some,
    aggregateOutcomes_zip_map (asyncGetServicesMetadataInPage env)]

/-- C1 witness: a concrete 3-page run evaluated with the reversed completion
order [1, 0] (page 3's task completes before page 2's) still yields the
records in page order 1, 2, 3. -/
theorem C1_witness :
    get_all_services_metadata_sched envOrder [1, 0] =
      some (Except.ok ⟨[1, 2, 3, 4, 5], []⟩) := by
  have h := C1_records_preserve_page_order envOrder [1, 0] firstPageW rfl (by decide)
  rw [h]
  rfl

/-- C3 (confirmed): when the bootstrap fetch of page 1 raises, the same
exception propagates out of `get_all_services_metadata` and no partial
result is produced (the spec's `PaginationBootstrapError` is this propagated
bootstrap failure); conversely, whenever the bootstrap fetch succeeds the
operation returns a result, whatever happens to every other page — so the
page-1 failure is the only per-page failure that can fail the whole
operation. -/
theorem C3_bootstrap_failure_is_fatal_and_unique (env : Env) :
    (∀ e, get_service_metadata_page env 1 = Except.error e →
      get_all_services_metadata env = Except.error e) ∧
    (∀ first_page, get_service_metadata_page env 1 = Except.ok first_page →
      ∃ r : RunResult, get_all_services_metadata env = Except.ok r) := by
  constructor
  · intro e h
    unfold get_all_services_metadata
    rw [h]
  · intro first_page h
    unfold get_all_services_metadata
    rw [h]
    exact ⟨_, rfl⟩

/-- C3 witness: the concrete run whose every request fails at the network
level fails outright with that bootstrap error. -/
theorem C3_witness :
    get_all_services_metadata envBoot = Except.error HttpError.networkFailure :=
  (C3_bootstrap_failure_is_fatal_and_unique envBoot).1 HttpError.networkFailure rfl

/-- C4 (confirmed): if a page throttles on its first `maxTries - 1 = 9`
attempts, the decorated fetch returns exactly the outcome of the 10th
attempt (attempt index 9): success on the 10th attempt makes the page a
success carrying its items, and throttling on the 10th attempt as well makes
it a terminal failure.  In particular at most 10 attempts are made. -/
theorem C4_throttling_retried_up_to_ten_tries (env : Env) (page : Nat)
    (h : ∀ i, i < maxTries - 1 → env page i = Except.error HttpError.tooManyRequests) :
    asyncGetServicesMetadataInPage env page =
      (env page (maxTries - 1)).map GetServiceMetadataPageResponse.services_metadata := by
  unfold asyncGetServicesMetadataInPage
  have h9 := backoffFetch_all_throttle env page 9 0 fun i hi => by
    have := h i (by simpa [maxTries] using hi)
    simpa using this
  have hmt : maxTries = 9 + 1 := rfl
  rw [hmt, h9]

/-- C4 witness: in the run that throttles every page on attempts 0..8 and
succeeds on attempt 9, page 2 is a success contributing its item. -/
theorem C4_witness :
    asyncGetServicesMetadataInPage envThrottle 2 = Except.ok [42] := by
  have h := C4_throttling_retried_up_to_ten_tries envThrottle 2 (by decide)
  rw [h]
  rfl

/-- C5 (confirmed): a first-attempt failure that is not the throttling
status — another error status, a network failure, or a malformed body — is
surfaced immediately as the page's terminal failure, with no retry: the
result is that error for every environment, whatever later attempts would
have returned. -/
theorem C5_non_throttling_failures_not_retried (env : Env) (page : Nat) (e : HttpError)
    (h0 : env page 0 = Except.error e) (hne : e ≠ HttpError.tooManyRequests) :
    asyncGetServicesMetadataInPage env page = Except.error e := by
  have hr : retryableError e = false := by
    cases e <;> simp_all [retryableError]
  unfold asyncGetServicesMetadataInPage
  have h9 := backoffFetch_giveup env page 0 e h0 hr 9
  have hmt : maxTries = 9 + 1 := rfl
  rw [hmt, h9]
  rfl

/-- C5 witness: a page whose first attempt returns status 500 fails
terminally with that status even though its second attempt would have
succeeded. -/
theorem C5_witness :
    asyncGetServicesMetadataInPage envOther 3 = Except.error (HttpError.otherStatus 500) :=
  C5_non_throttling_failures_not_retried envOther 3 (HttpError.otherStatus 500) rfl
    (by decide)

/-- Success of the retried fetch after a single throttled attempt: attempt 0
throttles, attempt 1 succeeds, so the decorated loop returns attempt 1's
response. -/
lemma backoffFetch_retry_once (env : Env) (page : Nat)
    (r : GetServiceMetadataPageResponse)
    (h0 : env page 0 = Except.error HttpError.tooManyRequests)
    (h1 : env page 1 = Except.ok r) :
    backoffFetch env page 0 maxTries = Except.ok r := by
  show backoffFetch env page 0 (Nat.succ (Nat.succ 8)) = _
  rw [backoffFetch, h0]
  show backoffFetch env page 1 (Nat.succ (Nat.succ 7)) = _
  rw [backoffFetch, h1]

/-- C2 (confirmed): in every run whose bootstrap fetch succeeds and in which
some non-bootstrap page `p` terminally fails with error `e`, the whole
operation still completes with a result; the failure is recorded in the
error log, every other page's successful item list still occurs (as a
contiguous sublist) in the returned records, and the records are exactly
page 1's items followed by the successful pages' items — so the failed page
contributes zero items and cancels nothing. -/
theorem C2_page_failure_does_not_cancel_siblings (env : Env)
    (first_page : GetServiceMetadataPageResponse) (p : Nat) (e : HttpError)
    (h1 : get_service_metadata_page env 1 = Except.ok first_page)
    (hp : p ∈ remainingPagesIndices first_page.total_page_count)
    (hfail : asyncGetServicesMetadataInPage env p = Except.error e) :
    ∃ r : RunResult, get_all_services_metadata env = Except.ok r ∧
      (p, e) ∈ r.failedPageLog ∧
      (∀ q ∈ remainingPagesIndices first_page.total_page_count,
        ∀ items, asyncGetServicesMetadataInPage env q = Except.ok items →
          items.Sublist r.records) ∧
      r.records = first_page.services_metadata ++
        ((remainingPagesIndices first_page.total_page_count).filterMap
          fun q => (asyncGetServicesMetadataInPage env q).toOption).flatten := by
  have hrun : get_all_services_metadata env = Except.ok
      ⟨first_page.services_metadata ++
        ((remainingPagesIndices first_page.total_page_count).filterMap
          fun q => (asyncGetServicesMetadataInPage env q).toOption).flatten,
        (remainingPagesIndices first_page.total_page_count).filterMap
          fun q =>
            match asyncGetServicesMetadataInPage env q with
            | Except.error e2 => some (q, e2)
            | Except.ok _ => none⟩ := by
    unfold get_all_services_metadata asyncGetRemainingServicesMetadata
    simp only [h1, aggregateOutcomes_zip_map (asyncGetServicesMetadataInPage env)]
  refine ⟨_, hrun, ?_, ?_, rfl⟩
  · exact List.mem_filterMap.mpr ⟨p, hp, by rw [hfail]⟩
  · intro q hq items hok
    have hmem : items ∈ (remainingPagesIndices first_page.total_page_count).filterMap
        fun q2 => (asyncGetServicesMetadataInPage env q2).toOption :=
      List.mem_filterMap.mpr ⟨q, hq, by rw [hok]; rfl⟩
    exact (List.sublist_flatten_of_mem hmem).trans
      (List.sublist_append_right first_page.services_metadata _)

/-- C2 witness: the spec's concrete scenario — 3 pages, page 2 fails with
status 503, page 3 succeeds with five items — completes with page 1's and
page 3's items and logs page 2. -/
theorem C2_witness :
    ∃ r : RunResult, get_all_services_metadata envThreeMixed = Except.ok r ∧
      (2, HttpError.otherStatus 503) ∈ r.failedPageLog ∧
      (∀ q ∈ remainingPagesIndices firstPageW.total_page_count,
        ∀ items, asyncGetServicesMetadataInPage envThreeMixed q = Except.ok items →
          items.Sublist r.records) ∧
      r.records = firstPageW.services_metadata ++
        ((remainingPagesIndices firstPageW.total_page_count).filterMap
          fun q => (asyncGetServicesMetadataInPage envThreeMixed q).toOption).flatten :=
  C2_page_failure_does_not_cancel_siblings envThreeMixed firstPageW 2
    (HttpError.otherStatus 503) rfl (by decide) (by decide)

/-- C6 (confirmed): whenever the bootstrap fetch succeeds and reports total
page count `N`, the fan-out submits exactly the pages `2, 3, ..., N` — that
is `N - 1` tasks, in strictly ascending order, each page exactly once
(no duplicates), and none at all when `N ≤ 1`; moreover no task whatsoever
is submitted in a run whose bootstrap fetch fails, so nothing is scheduled
before page 1's result is known. -/
theorem C6_fanout_schedules_each_remaining_page_once (env : Env)
    (first_page : GetServiceMetadataPageResponse) (N : Nat)
    (h1 : get_service_metadata_page env 1 = Except.ok first_page)
    (hN : first_page.total_page_count = (N : Int)) :
    scheduledPages env = List.range' 2 (N - 1) ∧
    (scheduledPages env).length = N - 1 ∧
    (scheduledPages env).Pairwise (· < ·) ∧
    (scheduledPages env).Nodup ∧
    (∀ p, p ∈ scheduledPages env ↔ 2 ≤ p ∧ p ≤ N) ∧
    (N ≤ 1 → scheduledPages env = []) ∧
    ∀ (env2 : Env) (e : HttpError),
      get_service_metadata_page env2 1 = Except.error e → scheduledPages env2 = [] := by
  have hs : scheduledPages env = List.range' 2 (N - 1) := by
    unfold scheduledPages
    simp only [h1]
    unfold remainingPagesIndices
    rw [hN]
    congr 1
    omega
  refine ⟨hs, ?_, ?_, ?_, ?_, ?_, ?_⟩
  · rw [hs, List.length_range']
  · rw [hs]
    exact List.pairwise_lt_range' 2 (N - 1)
  · rw [hs]
    exact (List.pairwise_lt_range' 2 (N - 1)).imp Nat.ne_of_lt
  · intro p
    rw [hs, List.mem_range'_1]
    omega
  · intro hle
    have h0 : N - 1 = 0 := by omega
    rw [hs, h0]
    rfl
  · intro env2 e h
    unfold scheduledPages
    simp only [h]

/-- C6 witness: in the concrete 3-page run, the fan-out schedules exactly
pages 2 and 3. -/
theorem C6_witness :
    scheduledPages envOrder = [2, 3] ∧ (scheduledPages envOrder).length = 2 := by
  have h := C6_fanout_schedules_each_remaining_page_once envOrder firstPageW 3 rfl rfl
  exact ⟨h.1, h.2.1⟩

/-- C7 counterexample: the claim says failure information reaches the caller
in the returned value.  It does not: the value returned by
`get_all_services_metadata` is the bare record list, and for a run in which
page 2 terminally fails it is identical to the value returned by a run in
which page 2 succeeds with zero items — the caller cannot tell the two runs
apart from the returned value; only the error-log side channel differs. -/
theorem C7_counterexample :
    returnedValue envPageTwoFails = Except.ok [10, 11] ∧
    returnedValue envPageTwoFails = returnedValue envPageTwoEmpty ∧
    get_all_services_metadata envPageTwoFails =
      Except.ok ⟨[10, 11], [(2, HttpError.networkFailure)]⟩ ∧
    get_all_services_metadata envPageTwoEmpty = Except.ok ⟨[10, 11], []⟩ := by
  decide

/-- C7 (amended): when one or more non-bootstrap pages terminally fail, the
operation still completes and hands the caller only the collected records;
each failed page's index and error are reported via a non-empty error log
(`logger.error`), not inside the returned value. -/
theorem C7_amended_failures_reported_in_log_only (env : Env)
    (first_page : GetServiceMetadataPageResponse) (p : Nat) (e : HttpError)
    (h1 : get_service_metadata_page env 1 = Except.ok first_page)
    (hp : p ∈ remainingPagesIndices first_page.total_page_count)
    (hfail : asyncGetServicesMetadataInPage env p = Except.error e) :
    ∃ r : RunResult, get_all_services_metadata env = Except.ok r ∧
      returnedValue env = Except.ok r.records ∧
      r.failedPageLog ≠ [] ∧ (p, e) ∈ r.failedPageLog := by
  have hrun : get_all_services_metadata env = Except.ok
      ⟨first_page.services_metadata ++
        ((remainingPagesIndices first_page.total_page_count).filterMap
          fun q => (asyncGetServicesMetadataInPage env q).toOption).flatten,
        (remainingPagesIndices first_page.total_page_count).filterMap
          fun q =>
            match asyncGetServicesMetadataInPage env q with
            | Except.error e2 => some (q, e2)
            | Except.ok _ => none⟩ := by
    unfold get_all_services_metadata asyncGetRemainingServicesMetadata
    simp only [h1, aggregateOutcomes_zip_map (asyncGetServicesMetadataInPage env)]
  have hmem : (p, e) ∈ (remainingPagesIndices first_page.total_page_count).filterMap
      fun q =>
        match asyncGetServicesMetadataInPage env q with
        | Except.error e2 => some (q, e2)
        | Except.ok _ => none :=
    List.mem_filterMap.mpr ⟨p, hp, by rw [hfail]⟩
  refine ⟨_, hrun, ?_, List.ne_nil_of_mem hmem, hmem⟩
  unfold returnedValue
  rw [hrun]
  rfl

/-- C7 witness: the run in which page 2 fails terminally completes, returns
only the records, and its error log names page 2 with its error. -/
theorem C7_witness :
    ∃ r : RunResult, get_all_services_metadata envPageTwoFails = Except.ok r ∧
      returnedValue envPageTwoFails = Except.ok r.records ∧
      r.failedPageLog ≠ [] ∧ (2, HttpError.networkFailure) ∈ r.failedPageLog :=
  C7_amended_failures_reported_in_log_only envPageTwoFails firstPageTwo 2
    HttpError.networkFailure rfl (by decide) (by decide)

/-- C8 counterexample: the claim says the synchronous page-1 fetch goes
through the same limiter-and-retry contract as other pages.  It does not:
`get_service_metadata_page` never acquires the limiter, and in a run where
page 1 throttles once and would succeed from the second attempt on, the
bootstrap fetch fails outright — failing the whole operation — even though
the decorated path used for pages ≥ 2 would have retried and succeeded. -/
theorem C8_counterexample :
    FetchEvent.acquireLimiter 1 ∉ syncFetchTrace 1 ∧
    get_service_metadata_page envBootThrottle 1 = Except.error HttpError.tooManyRequests ∧
    backoffFetch envBootThrottle 1 0 maxTries = Except.ok pageOneRetryOk ∧
    get_all_services_metadata envBootThrottle = Except.error HttpError.tooManyRequests := by
  decide

/-- C8 (amended): the synchronous page-1 fetch does not go through the
PageFetcher contract used for pages ≥ 2: it issues a single plain request,
acquiring no slot from the shared rate limiter and performing no retry, so a
page-1 attempt that throttles fails the bootstrap immediately — while the
decorated path, which acquires the limiter before each attempt, would have
retried the same environment and succeeded. -/
theorem C8_amended_bootstrap_skips_limiter_and_retry (env : Env) (page : Nat)
    (r : GetServiceMetadataPageResponse)
    (h0 : env page 0 = Except.error HttpError.tooManyRequests)
    (h1 : env page 1 = Except.ok r) :
    get_service_metadata_page env page = Except.error HttpError.tooManyRequests ∧
    FetchEvent.acquireLimiter page ∉ syncFetchTrace page ∧
    (backoffFetchTrace env page 0 maxTries).head? = some (FetchEvent.acquireLimiter page) ∧
    backoffFetch env page 0 maxTries = Except.ok r := by
  refine ⟨h0, ?_, rfl, backoffFetch_retry_once env page r h0 h1⟩
  simp [syncFetchTrace]

/-- C8 witness: the amended statement at the concrete run whose page 1
throttles on attempt 0 and succeeds from attempt 1 on. -/
theorem C8_witness :
    get_service_metadata_page envBootThrottle 1 = Except.error HttpError.tooManyRequests ∧
    FetchEvent.acquireLimiter 1 ∉ syncFetchTrace 1 ∧
    (backoffFetchTrace envBootThrottle 1 0 maxTries).head? =
      some (FetchEvent.acquireLimiter 1) ∧
    backoffFetch envBootThrottle 1 0 maxTries = Except.ok pageOneRetryOk :=
  C8_amended_bootstrap_skips_limiter_and_retry envBootThrottle 1 pageOneRetryOk rfl rfl

/-- C10 (confirmed): if page 1's response reports a total page count below 2
— including 0 and negative values — the operation raises nothing, schedules
no further fetch (the remaining-page list is empty) and returns exactly page
1's items in their original order, with an empty error log. -/
theorem C10_total_page_count_below_two_returns_page_one_only (env : Env)
    (first_page : GetServiceMetadataPageResponse)
    (h1 : get_service_metadata_page env 1 = Except.ok first_page)
    (hlt : first_page.total_page_count < 2) :
    get_all_services_metadata env = Except.ok ⟨first_page.services_metadata, []⟩ ∧
    remainingPagesIndices first_page.total_page_count = [] := by
  have hempty : remainingPagesIndices first_page.total_page_count = [] := by
    unfold remainingPagesIndices
    have h0 : (first_page.total_page_count - 1).toNat = 0 := by omega
    rw [h0]
    rfl
  refine ⟨?_, hempty⟩
  unfold get_all_services_metadata asyncGetRemainingServicesMetadata
  simp only [h1, hempty]
  simp [aggregateOutcomes]

/-- C10 witness: a page-1 response reporting total page count −1 yields
exactly page 1's items and no error. -/
theorem C10_witness :
    get_all_services_metadata envNeg = Except.ok ⟨[7, 8], []⟩ :=
  (C10_total_page_count_below_two_returns_page_one_only envNeg ⟨⟨0, 1, 0, -1⟩, [7, 8]⟩
    rfl (by decide)).1

end ToSDR
